import Mathlib

/-!
Shallow embedding of the network diagnostics toolkit (src/main.py).

The network is modelled as an environment value handed to each function:
for one TCP connect / HTTP GET / DNS query, the environment says whether
the call succeeds (and with which measured latency / status / records) or
which library exception it raises.  Latencies are rationals (Python float
arithmetic is modelled exactly); `typer.echo` output is collected into a
list of strings; a Python function that can raise an uncaught exception
is embedded as `Except String`-valued, where `.error` is an exception
escaping the function's boundary.  `time.sleep` and the wall clock are
not modelled; the fixed message texts elide Python's numeric formatting.
-/

namespace NetDiag

/-- Result of one raw TCP `sock.connect` as seen at the call site of
src/main.py: success with a measured latency, or one of the exceptions the
source catches (`socket.timeout`, `socket.gaierror`, `ConnectionRefusedError`,
any other `Exception`). -/
inductive TcpResult where
  | ok (latency : ℚ)
  | timeout
  | gaierror (msg : String)
  | refused
  | unexpected (msg : String)
deriving DecidableEq

/-- Whether the raw TCP connect succeeded. -/
def TcpResult.isOk : TcpResult → Bool
  | .ok _ => true
  | _ => false

/-- Result of one `httpx.get`: a response (any status code) with a measured
latency, or one of `httpx.TimeoutException`, `httpx.ConnectError`,
`httpx.HTTPError`, or any other `Exception`. -/
inductive HttpResult where
  | ok (status : Int) (latency : ℚ)
  | timeout
  | connectError (msg : String)
  | httpError (msg : String)
  | unexpected (msg : String)
deriving DecidableEq

/-- Whether the HTTP request returned a response. -/
def HttpResult.isOk : HttpResult → Bool
  | .ok _ _ => true
  | _ => false

/-- Result of one `resolver.resolve(domain, "A")`: an answer (list of A
records in resolver order) with a measured latency, or one of
`dns.resolver.NXDOMAIN`, `NoAnswer`, `NoNameservers`, `Timeout`, or any
other `Exception`. -/
inductive DnsResult where
  | ok (ips : List String) (latency : ℚ)
  | nxdomain
  | noAnswer
  | noNameservers
  | timeout
  | unexpected (msg : String)
deriving DecidableEq

/-- Whether the DNS query returned an answer with at least one record
(so that the source's `res[0]` does not raise `IndexError`). -/
def DnsResult.hasRecord : DnsResult → Bool
  | .ok (_ :: _) _ => true
  | _ => false

/-- The dict returned by `ping` on success: `{"host": host, "latency": latency}`. -/
structure PingPayload where
  host : String
  latency : ℚ
deriving DecidableEq

/-- The dict returned by `api_check` on success:
`{"url": url, "status_code": ..., "latency": ...}`. -/
structure ApiPayload where
  url : String
  status_code : Int
  latency : ℚ
deriving DecidableEq

/-- The dict returned by `dns_check` on success:
`{"domain": domain, "ip": str(res[0]), "latency": ...}`. -/
structure DnsPayload where
  domain : String
  ip : String
  latency : ℚ
deriving DecidableEq

/-- src/main.py `ping` (lines 14-37).  Returns the success dict, or `None`
after echoing a diagnostic: every exception raised in the `try` body is
caught by one of the four `except` clauses (the last one catches any
`Exception`), so the function itself never raises. -/
def ping (host : String) (quiet : Bool) (net : TcpResult) :
    Except String (Option PingPayload × List String) :=
  match net with
  | .ok latency =>
      Except.ok (some { host := host, latency := latency },
        if quiet then [] else ["Connection established in s"])
  | .timeout => Except.ok (none, ["Connection timed out"])
  | .gaierror e => Except.ok (none, ["Failed to resolve " ++ host ++ ": " ++ e])
  | .refused => Except.ok (none, ["Connection refused by " ++ host ++ " (port closed)"])
  | .unexpected e => Except.ok (none, ["An unexpected error occurred: " ++ e])

/-- src/main.py `api_check` (lines 40-65).  Any received response is a
success whatever its status code; the four `except` clauses (ending in a
catch-all) turn every failure into `None` plus a diagnostic echo. -/
def api_check (url : String) (quiet : Bool) (net : HttpResult) :
    Except String (Option ApiPayload × List String) :=
  match net with
  | .ok status latency =>
      Except.ok (some { url := url, status_code := status, latency := latency },
        if quiet then [] else ["Status: , Latency: s"])
  | .timeout => Except.ok (none, ["Request timed out"])
  | .connectError e => Except.ok (none, ["DNS failure or server down: " ++ e])
  | .httpError e => Except.ok (none, ["HTTP Error: " ++ e])
  | .unexpected e => Except.ok (none, ["An unexpected error occurred: " ++ e])

/-- src/main.py `dns_check` (lines 68-96).  On an answer, the source takes
`res[0]`; if the answer list were empty this raises `IndexError`, which the
final catch-all `except Exception` turns into the unexpected-error echo
(with `quiet=False` the `"DNS resolved"` line is echoed before `res[0]` is
evaluated).  The five `except` clauses end in a catch-all, so the function
never raises. -/
def dns_check (domain : String) (quiet : Bool) (net : DnsResult) :
    Except String (Option DnsPayload × List String) :=
  match net with
  | .ok ips latency =>
      match ips.head? with
      | some ip =>
          Except.ok (some { domain := domain, ip := ip, latency := latency },
            if quiet then [] else ["DNS resolved in s", "IP address: " ++ ip])
      | none =>
          Except.ok (none,
            (if quiet then [] else ["DNS resolved in s"])
              ++ ["An unexpected error occurred: list index out of range"])
  | .nxdomain => Except.ok (none, ["Domain " ++ domain ++ " does not exist"])
  | .noAnswer => Except.ok (none, ["DNS record not found"])
  | .noNameservers => Except.ok (none, ["DNS server not found"])
  | .timeout => Except.ok (none, ["DNS query timed out"])
  | .unexpected e => Except.ok (none, ["An unexpected error occurred: " ++ e])

/-- The dict returned by `monitor` (lines 142-147): `success_rate` is the
percentage `(success_attempts / count) * 100`; `average_latency` is
`total_latency / success_attempts` when there was a success, else `None`. -/
structure MonitorStats where
  success_rate : ℚ
  average_latency : Option ℚ
deriving DecidableEq

/-- One iteration of the `for i in range(count)` body of `monitor`
(lines 108-134) on the running state
`(success_attempts, failed_attempts, total_latency, echoes)`: a successful
connect bumps `success_attempts` and `total_latency`; the three named
exceptions and the catch-all `except Exception` bump `failed_attempts`
(the catch-all echoes its message even with `quiet=True`).  `time.sleep`
has no modelled effect. -/
def monitorStep (quiet : Bool) (st : Nat × Nat × ℚ × List String) (r : TcpResult) :
    Nat × Nat × ℚ × List String :=
  match r with
  | .ok latency =>
      (st.1 + 1, st.2.1, st.2.2.1 + latency,
        st.2.2.2 ++ if quiet then [] else ["Attempt: Connected in s"])
  | .timeout =>
      (st.1, st.2.1 + 1, st.2.2.1, st.2.2.2 ++ if quiet then [] else ["Attempt: Failed"])
  | .gaierror _ =>
      (st.1, st.2.1 + 1, st.2.2.1, st.2.2.2 ++ if quiet then [] else ["Attempt: Failed"])
  | .refused =>
      (st.1, st.2.1 + 1, st.2.2.1, st.2.2.2 ++ if quiet then [] else ["Attempt: Failed"])
  | .unexpected e =>
      (st.1, st.2.1 + 1, st.2.2.1, st.2.2.2 ++ ["An unexpected error occurred: " ++ e])

/-- The whole `for i in range(count)` loop of `monitor`, with attempt `i`
drawing its connect result from the environment `net i`, starting from
`success_attempts = failed_attempts = total_latency = 0` (line 107). -/
def monitorLoop (quiet : Bool) (net : Nat → TcpResult) (n : Nat) :
    Nat × Nat × ℚ × List String :=
  (List.range n).foldl (fun st i => monitorStep quiet st (net i)) (0, 0, 0, [])

/-- src/main.py `monitor` (lines 99-147).  `host`, `port` and `interval`
only shape the network behaviour abstracted by `net`.  After the loop, the
unconditional echo at line 136 computes `(success_attempts/count)*100`:
when `count == 0` (Python `range(0)` runs no attempt) this division raises
`ZeroDivisionError`, which no handler catches, so it escapes `monitor`.
Otherwise the average-latency echo falls back to `"N/A"` on zero successes
and the stats dict of lines 142-147 is returned. -/
def monitor (host : String) (port : Int) (count : Int) (interval : ℚ) (quiet : Bool)
    (net : Nat → TcpResult) : Except String (MonitorStats × List String) :=
  let st := monitorLoop quiet net count.toNat
  if count = 0 then
    Except.error "ZeroDivisionError: division by zero"
  else
    let es := st.2.2.2 ++ ["Success Rate: %"]
    let es := es ++ (if st.1 = 0 then ["Average Latency: N/A"] else ["Average Latency: s"])
    Except.ok ({ success_rate := ((st.1 : ℚ) / (count : ℚ)) * 100,
                 average_latency :=
                   if 0 < st.1 then some (st.2.2.1 / (st.1 : ℚ)) else none }, es)

/-- The report dict of `generate_report` (lines 182-187): one slot per
probe, every probe called with `quiet=True`, and the `"monitor"` slot
produced by `monitor(domain, quiet=True)` with the defaults
`port=80, count=5, interval=1.0`. -/
structure Report where
  ping : Option PingPayload
  api_check : Option ApiPayload
  dns_check : Option DnsPayload
  monitor : MonitorStats
deriving DecidableEq

/-- Python subscription `value["key"]` applied to a probe slot that may be
`None`: on `None` it raises `TypeError`. -/
def getItem (x : Option α) : Except String α :=
  match x with
  | some v => Except.ok v
  | none => Except.error "TypeError: NoneType object is not subscriptable"

/-- The assembly of the report dict, lines 182-187 of src/main.py: each
probe's structured result (first component; the echo streams go to the
console) fills its slot.  An exception raised by any probe call would
propagate, aborting the dict construction. -/
def assemble (host url domain : String) (netP : TcpResult) (netA : HttpResult)
    (netD : DnsResult) (netM : Nat → TcpResult) : Except String Report := do
  let p ← ping host true netP
  let a ← api_check url true netA
  let d ← dns_check domain true netD
  let m ← monitor domain 80 5 1 true netM
  return { ping := p.1, api_check := a.1, dns_check := d.1, monitor := m.1 }

/-- src/main.py `generate_report` (lines 167-204).  After assembling the
report dict it echoes a summary (lines 189-199) that subscripts
`report["ping"]["latency"]`, `report["api-check"]["latency"]` and
`report["dns-check"]["latency"]`: whenever one of those slots is `None`
the subscription raises `TypeError`, which escapes the function.  The
`"monitor"` line and the JSON dump raise nothing, and `_save_report`
(filesystem persistence, out of scope) is triggered by `save_to_file`. -/
def generate_report (host url domain : String) (save_to_file : Bool)
    (netP : TcpResult) (netA : HttpResult) (netD : DnsResult) (netM : Nat → TcpResult) :
    Except String Report := do
  let r ← assemble host url domain netP netA netD netM
  let _ ← getItem r.ping
  let _ ← getItem r.api_check
  let _ ← getItem r.dns_check
  return r

/-- The latency carried by a successful connect, if any. -/
def TcpResult.successLatency : TcpResult → Option ℚ
  | .ok l => some l
  | _ => none

/-- Spec-side description, for comparison with the loop accumulator of
`monitor`: the list of latencies of the successful attempts among the
first `n`, in order ("latency of successes"). -/
def specSuccessLatencies (net : Nat → TcpResult) (n : Nat) : List ℚ :=
  (List.range n).filterMap fun i => (net i).successLatency

theorem monitorLoop_succ (q : Bool) (net : Nat → TcpResult) (n : Nat) :
    monitorLoop q net (n + 1) = monitorStep q (monitorLoop q net n) (net n) := by
  simp [monitorLoop, List.range_succ]

theorem specSuccessLatencies_succ (net : Nat → TcpResult) (n : Nat) :
    specSuccessLatencies net (n + 1)
      = specSuccessLatencies net n ++ (net n).successLatency.toList := by
  cases h : (net n).successLatency <;>
    simp [specSuccessLatencies, List.range_succ, h]

/-- The running state of the `monitor` loop, characterised: the success
counter counts the successful attempts, successes and failures sum to the
number of attempts performed, and the latency accumulator is the sum of the
latencies of the successful attempts. -/
theorem monitorLoop_props (q : Bool) (net : Nat → TcpResult) :
    ∀ n : Nat,
      (monitorLoop q net n).1 = (specSuccessLatencies net n).length
      ∧ (monitorLoop q net n).1 + (monitorLoop q net n).2.1 = n
      ∧ (monitorLoop q net n).2.2.1 = (specSuccessLatencies net n).sum := by
  intro n
  induction n with
  | zero => simp [monitorLoop, specSuccessLatencies]
  | succ n ih =>
    obtain ⟨h1, h2, h3⟩ := ih
    rw [monitorLoop_succ, specSuccessLatencies_succ]
    cases hr : net n <;>
      simp [monitorStep, TcpResult.successLatency, h1, h3] <;> omega

/-- The monitor loop state does not depend on the quiet flag except in its
echo component. -/
theorem monitorLoop_quiet (net : Nat → TcpResult) (n : Nat) (q r : Bool) :
    (monitorLoop q net n).1 = (monitorLoop r net n).1
    ∧ (monitorLoop q net n).2.1 = (monitorLoop r net n).2.1
    ∧ (monitorLoop q net n).2.2.1 = (monitorLoop r net n).2.2.1 := by
  obtain ⟨a1, a2, a3⟩ := monitorLoop_props q net n
  obtain ⟨b1, b2, b3⟩ := monitorLoop_props r net n
  refine ⟨?_, ?_, ?_⟩
  · rw [a1, b1]
  · omega
  · rw [a3, b3]

theorem specSuccessLatencies_all_ok (net : Nat → TcpResult)
    (h : ∀ i, (net i).isOk = true) :
    ∀ n, (specSuccessLatencies net n).length = n := by
  intro n
  induction n with
  | zero => simp [specSuccessLatencies]
  | succ n ih =>
    rw [specSuccessLatencies_succ]
    have := h n
    cases hr : net n <;> simp_all [TcpResult.isOk, TcpResult.successLatency]

theorem specSuccessLatencies_all_fail (net : Nat → TcpResult)
    (h : ∀ i, (net i).isOk = false) :
    ∀ n, specSuccessLatencies net n = [] := by
  intro n
  induction n with
  | zero => simp [specSuccessLatencies]
  | succ n ih =>
    rw [specSuccessLatencies_succ]
    have := h n
    cases hr : net n <;> simp_all [TcpResult.isOk, TcpResult.successLatency]

theorem ping_ok (host : String) (q : Bool) (net : TcpResult) :
    ∃ v, ping host q net = Except.ok v := by
  cases net <;> exact ⟨_, rfl⟩

theorem api_check_ok (url : String) (q : Bool) (net : HttpResult) :
    ∃ v, api_check url q net = Except.ok v := by
  cases net <;> exact ⟨_, rfl⟩

theorem dns_check_ok (domain : String) (q : Bool) (net : DnsResult) :
    ∃ v, dns_check domain q net = Except.ok v := by
  cases net with
  | ok ips latency => cases ips <;> exact ⟨_, rfl⟩
  | _ => exact ⟨_, rfl⟩

/-- With a nonzero attempt count `monitor` returns normally, and its stats
are determined by the loop state. -/
theorem monitor_eq (host : String) (port count : Int) (interval : ℚ) (q : Bool)
    (net : Nat → TcpResult) (h : count ≠ 0) :
    monitor host port count interval q net
      = Except.ok
          ({ success_rate := (((monitorLoop q net count.toNat).1 : ℚ) / (count : ℚ)) * 100,
             average_latency :=
               if 0 < (monitorLoop q net count.toNat).1 then
                 some ((monitorLoop q net count.toNat).2.2.1
                   / ((monitorLoop q net count.toNat).1 : ℚ))
               else none },
           (monitorLoop q net count.toNat).2.2.2 ++ ["Success Rate: %"]
             ++ (if (monitorLoop q net count.toNat).1 = 0 then ["Average Latency: N/A"]
                 else ["Average Latency: s"])) := by
  simp [monitor, h]

/-- Shape of every `ping` result: the call returns normally, the structured
result is populated exactly when the connect succeeded, and a failure is
accompanied by a diagnostic echo. -/
theorem ping_shape (host : String) (q : Bool) (net : TcpResult) :
    ∃ p ep, ping host q net = Except.ok (p, ep)
      ∧ p.isSome = net.isOk ∧ (p.isSome = true ∨ ep ≠ []) := by
  cases net <;>
    exact ⟨_, _, rfl, rfl, by first | exact Or.inl rfl | exact Or.inr (by simp)⟩

/-- Shape of every `api_check` result, as for `ping_shape`. -/
theorem api_shape (url : String) (q : Bool) (net : HttpResult) :
    ∃ a ea, api_check url q net = Except.ok (a, ea)
      ∧ a.isSome = net.isOk ∧ (a.isSome = true ∨ ea ≠ []) := by
  cases net <;>
    exact ⟨_, _, rfl, rfl, by first | exact Or.inl rfl | exact Or.inr (by simp)⟩

/-- Shape of every `dns_check` result: populated exactly when the query
returned at least one record, failures echo a diagnostic. -/
theorem dns_shape (domain : String) (q : Bool) (net : DnsResult) :
    ∃ d ed, dns_check domain q net = Except.ok (d, ed)
      ∧ d.isSome = net.hasRecord ∧ (d.isSome = true ∨ ed ≠ []) := by
  cases net with
  | ok ips latency =>
      cases ips <;>
        exact ⟨_, _, rfl, rfl, by first | exact Or.inl rfl | exact Or.inr (by simp)⟩
  | nxdomain => exact ⟨_, _, rfl, rfl, Or.inr (by simp)⟩
  | noAnswer => exact ⟨_, _, rfl, rfl, Or.inr (by simp)⟩
  | noNameservers => exact ⟨_, _, rfl, rfl, Or.inr (by simp)⟩
  | timeout => exact ⟨_, _, rfl, rfl, Or.inr (by simp)⟩
  | unexpected e => exact ⟨_, _, rfl, rfl, Or.inr (by simp)⟩

/-- Claim C1: a monitor run with `attempt_count >= 1` and zero successful
attempts returns normally with `average_latency` absent (`None`, not zero
and not an error) and `success_rate` equal to `0.0`. -/
theorem claim_C1 (host : String) (port count : Int) (interval : ℚ) (q : Bool)
    (net : Nat → TcpResult) (hc : 1 ≤ count) (hf : ∀ i, (net i).isOk = false) :
    ∃ stats es, monitor host port count interval q net = Except.ok (stats, es)
      ∧ stats.average_latency = none ∧ stats.success_rate = 0 := by
  have h0 : count ≠ 0 := by omega
  obtain ⟨h1, h2, h3⟩ := monitorLoop_props q net count.toNat
  have hz : (monitorLoop q net count.toNat).1 = 0 := by
    rw [h1, specSuccessLatencies_all_fail net hf]; rfl
  refine ⟨_, _, monitor_eq host port count interval q net h0, ?_, ?_⟩
  · simp [hz]
  · simp [hz]

/-- Claim C1, witness: two attempts that both time out yield
`average_latency = None` and `success_rate = 0`. -/
theorem claim_C1_witness :
    ∃ stats es,
      monitor "example.com" 80 2 1 true (fun _ => TcpResult.timeout)
        = Except.ok (stats, es)
      ∧ stats.average_latency = none ∧ stats.success_rate = 0 :=
  claim_C1 "example.com" 80 2 1 true (fun _ => TcpResult.timeout)
    (by norm_num) (fun i => rfl)

/-- Claim C2, counterexample: the claim says `success_rate` always lies in
`[0.0, 1.0]`, but `monitor` returns the percentage
`(success_attempts / count) * 100` (line 143 of src/main.py): one attempt
that succeeds gives `success_rate = 100.0`, which exceeds `1.0`. -/
theorem claim_C2_counterexample :
    Except.map (fun x => x.1.success_rate)
        (monitor "example.com" 80 1 0 true (fun _ => TcpResult.ok 1))
      = Except.ok 100
    ∧ ¬ ((100 : ℚ) ≤ 1) := by
  constructor
  · norm_num [monitor, monitorLoop, monitorStep, show (1 : Int).toNat = 1 from rfl,
      show List.range 1 = [0] from rfl, Except.map]
  · norm_num

/-- Claim C2, amended: for every monitor run with `attempt_count >= 1` the
returned `success_rate` is the success percentage, lying in `[0.0, 100.0]`,
and when every attempt succeeds it equals exactly `100.0`. -/
theorem claim_C2 (host : String) (port count : Int) (interval : ℚ) (q : Bool)
    (net : Nat → TcpResult) (hc : 1 ≤ count) :
    ∃ stats es, monitor host port count interval q net = Except.ok (stats, es)
      ∧ 0 ≤ stats.success_rate ∧ stats.success_rate ≤ 100
      ∧ ((∀ i, (net i).isOk = true) → stats.success_rate = 100) := by
  have h0 : count ≠ 0 := by omega
  obtain ⟨h1, h2, h3⟩ := monitorLoop_props q net count.toNat
  have hcq : (0 : ℚ) < (count : ℚ) := by exact_mod_cast (by omega : (0 : Int) < count)
  refine ⟨_, _, monitor_eq host port count interval q net h0, ?_, ?_, ?_⟩
  · have hnum : (0 : ℚ) ≤ ((monitorLoop q net count.toNat).1 : ℚ) := Nat.cast_nonneg _
    have := div_nonneg hnum hcq.le
    nlinarith
  · have hsle : ((monitorLoop q net count.toNat).1 : Int) ≤ count := by omega
    have hsq : ((monitorLoop q net count.toNat).1 : ℚ) ≤ (count : ℚ) := by
      exact_mod_cast hsle
    have hdiv : ((monitorLoop q net count.toNat).1 : ℚ) / (count : ℚ) ≤ 1 :=
      (div_le_one hcq).mpr hsq
    nlinarith
  · intro hall
    have hsn : (monitorLoop q net count.toNat).1 = count.toNat := by
      rw [h1, specSuccessLatencies_all_ok net hall]
    have hsq : ((monitorLoop q net count.toNat).1 : ℚ) = (count : ℚ) := by
      rw [hsn]
      exact_mod_cast congrArg (fun z : Int => (z : ℚ)) (Int.toNat_of_nonneg (by omega))
    simp only [hsq]
    rw [div_self (ne_of_gt hcq)]
    norm_num

/-- Claim C2, witness: two successful attempts give a rate between `0` and
`100`, and all-success forces exactly `100`. -/
theorem claim_C2_witness :
    ∃ stats es,
      monitor "example.com" 80 2 1 false (fun _ => TcpResult.ok 1)
        = Except.ok (stats, es)
      ∧ 0 ≤ stats.success_rate ∧ stats.success_rate ≤ 100
      ∧ ((∀ i : Nat, ((fun _ : Nat => TcpResult.ok 1) i).isOk = true)
          → stats.success_rate = 100) :=
  claim_C2 "example.com" 80 2 1 false (fun _ : Nat => TcpResult.ok 1) (by norm_num)

/-- Claim C3: with a failing `ping` probe and the other three probes
succeeding, the report dict of lines 182-187 is indeed assembled with all
four keys, the failing slot `None` and the succeeding slots their payloads;
but `generate_report` then raises `TypeError` at line 190 when the summary
echo subscripts `report["ping"]["latency"]` on `None`, contradicting the
claim that assembly does not raise.  This theorem evaluates the code at the
failing input. -/
theorem claim_C3_bug :
    assemble "example.com" "http://example.com" "example.org"
        TcpResult.timeout (HttpResult.ok 200 1) (DnsResult.ok ["93.184.216.34"] 1)
        (fun _ => TcpResult.ok 1)
      = Except.ok
          { ping := none,
            api_check := some { url := "http://example.com", status_code := 200, latency := 1 },
            dns_check := some { domain := "example.org", ip := "93.184.216.34", latency := 1 },
            monitor := { success_rate := 100, average_latency := some 1 } }
    ∧ generate_report "example.com" "http://example.com" "example.org" false
        TcpResult.timeout (HttpResult.ok 200 1) (DnsResult.ok ["93.184.216.34"] 1)
        (fun _ => TcpResult.ok 1)
      = Except.error "TypeError: NoneType object is not subscriptable" := by
  constructor
  · norm_num [assemble, ping, api_check, dns_check, monitor, monitorLoop, monitorStep,
      show (5 : Int).toNat = 5 from rfl, show List.range 5 = [0, 1, 2, 3, 4] from rfl,
      Except.bind, bind, pure, Except.pure]
  · rfl

/-- Claim C4, counterexample: the claim says a failing probe returns a value
with a populated `error_kind`; but `ping` on a connect timeout returns
`None` — the structured result is empty, carrying no classification at all
(the failure kind appears only in the echoed diagnostic line). -/
theorem claim_C4_counterexample :
    Except.map Prod.fst (ping "example.com" false TcpResult.timeout)
      = Except.ok none := rfl

/-- Claim C4, amended: every probe execution returns normally carrying
exactly one of the two forms — on success a populated payload including the
latency, on failure `None` (an absent result, with no `error_kind` field)
together with an echoed diagnostic classifying the failure — never both and
never neither. -/
theorem claim_C4 (host url domain : String) (q : Bool)
    (tnet : TcpResult) (anet : HttpResult) (dnet : DnsResult) :
    ∃ p ep a ea d ed,
      ping host q tnet = Except.ok (p, ep)
      ∧ api_check url q anet = Except.ok (a, ea)
      ∧ dns_check domain q dnet = Except.ok (d, ed)
      ∧ p.isSome = tnet.isOk ∧ a.isSome = anet.isOk ∧ d.isSome = dnet.hasRecord
      ∧ (p.isSome = true ∨ ep ≠ []) ∧ (a.isSome = true ∨ ea ≠ [])
      ∧ (d.isSome = true ∨ ed ≠ []) := by
  obtain ⟨p, ep, hp, hp1, hp2⟩ := ping_shape host q tnet
  obtain ⟨a, ea, ha, ha1, ha2⟩ := api_shape url q anet
  obtain ⟨d, ed, hd, hd1, hd2⟩ := dns_shape domain q dnet
  exact ⟨p, ep, a, ea, d, ed, hp, ha, hd, hp1, ha1, hd1, hp2, ha2, hd2⟩

/-- Claim C5: for every `attempt_count >= 1` the monitor loop performs all
the attempts and records exactly one outcome per attempt — successes plus
failures equal the attempt count — and `monitor` returns normally with no
early termination. -/
theorem claim_C5 (host : String) (port count : Int) (interval : ℚ) (q : Bool)
    (net : Nat → TcpResult) (hc : 1 ≤ count) :
    (monitorLoop q net count.toNat).1 + (monitorLoop q net count.toNat).2.1 = count.toNat
    ∧ ((count.toNat : Int) = count)
    ∧ ∃ v, monitor host port count interval q net = Except.ok v := by
  obtain ⟨h1, h2, h3⟩ := monitorLoop_props q net count.toNat
  exact ⟨h2, by omega, ⟨_, monitor_eq host port count interval q net (by omega)⟩⟩

/-- Claim C5, witness: three attempts with one success and two failures
count as `1 + 2 = 3`, and the run returns normally. -/
theorem claim_C5_witness :
    (monitorLoop true (fun i => if i = 0 then TcpResult.ok 1 else TcpResult.timeout)
          (3 : Int).toNat).1
        + (monitorLoop true (fun i => if i = 0 then TcpResult.ok 1 else TcpResult.timeout)
          (3 : Int).toNat).2.1
      = (3 : Int).toNat
    ∧ (((3 : Int).toNat : Int) = 3)
    ∧ ∃ v, monitor "example.com" 80 3 1 true
        (fun i => if i = 0 then TcpResult.ok 1 else TcpResult.timeout) = Except.ok v :=
  claim_C5 "example.com" 80 3 1 true
    (fun i => if i = 0 then TcpResult.ok 1 else TcpResult.timeout) (by norm_num)

/-- Claim C6: no probe raises past its boundary — for every environment
(every failure condition included) `ping`, `api_check` and `dns_check`
return normally. -/
theorem claim_C6 (host url domain : String) (q : Bool)
    (tnet : TcpResult) (anet : HttpResult) (dnet : DnsResult) :
    (∃ v, ping host q tnet = Except.ok v)
    ∧ (∃ v, api_check url q anet = Except.ok v)
    ∧ (∃ v, dns_check domain q dnet = Except.ok v) :=
  ⟨ping_ok host q tnet, api_check_ok url q anet, dns_check_ok domain q dnet⟩

/-- Claim C7: with at least one successful attempt, `average_latency` is
the sum of the latencies of the successful attempts divided by their
number; failed attempts contribute to neither term. -/
theorem claim_C7 (host : String) (port count : Int) (interval : ℚ) (q : Bool)
    (net : Nat → TcpResult) (hc : 1 ≤ count)
    (hs : specSuccessLatencies net count.toNat ≠ []) :
    ∃ stats es, monitor host port count interval q net = Except.ok (stats, es)
      ∧ stats.average_latency
          = some ((specSuccessLatencies net count.toNat).sum
              / ((specSuccessLatencies net count.toNat).length : ℚ)) := by
  obtain ⟨h1, h2, h3⟩ := monitorLoop_props q net count.toNat
  have hpos : 0 < (monitorLoop q net count.toNat).1 := by
    rw [h1]; exact List.length_pos.mpr hs
  rw [h1] at hpos
  refine ⟨_, _, monitor_eq host port count interval q net (by omega), ?_⟩
  simp only [h1, h3, if_pos hpos]

/-- Claim C7, witness: one success with latency `2` among two attempts
gives `average_latency = 2/1`. -/
theorem claim_C7_witness :
    ∃ stats es,
      monitor "example.com" 80 2 1 true
          (fun i => if i = 0 then TcpResult.ok 2 else TcpResult.timeout)
        = Except.ok (stats, es)
      ∧ stats.average_latency
          = some ((specSuccessLatencies
                (fun i => if i = 0 then TcpResult.ok 2 else TcpResult.timeout)
                (2 : Int).toNat).sum
              / ((specSuccessLatencies
                (fun i => if i = 0 then TcpResult.ok 2 else TcpResult.timeout)
                (2 : Int).toNat).length : ℚ)) :=
  claim_C7 "example.com" 80 2 1 true
    (fun i => if i = 0 then TcpResult.ok 2 else TcpResult.timeout)
    (by norm_num) (by decide)

/-- Claim C8: the quiet flag never changes the structured result of `ping`,
`api_check`, `dns_check` or `monitor` on the same input and the same
network responses — it only suppresses echo output. -/
theorem claim_C8 (host url domain : String) (port count : Int) (interval : ℚ)
    (tnet : TcpResult) (anet : HttpResult) (dnet : DnsResult) (mnet : Nat → TcpResult)
    (q r : Bool) :
    Except.map Prod.fst (ping host q tnet) = Except.map Prod.fst (ping host r tnet)
    ∧ Except.map Prod.fst (api_check url q anet) = Except.map Prod.fst (api_check url r anet)
    ∧ Except.map Prod.fst (dns_check domain q dnet)
        = Except.map Prod.fst (dns_check domain r dnet)
    ∧ Except.map Prod.fst (monitor host port count interval q mnet)
        = Except.map Prod.fst (monitor host port count interval r mnet) := by
  refine ⟨?_, ?_, ?_, ?_⟩
  · cases tnet <;> rfl
  · cases anet <;> rfl
  · cases dnet with
    | ok ips latency => cases ips <;> rfl
    | nxdomain => rfl
    | noAnswer => rfl
    | noNameservers => rfl
    | timeout => rfl
    | unexpected e => rfl
  · by_cases h0 : count = 0
    · simp [monitor, h0]
    · rw [monitor_eq host port count interval q mnet h0,
        monitor_eq host port count interval r mnet h0]
      obtain ⟨e1, e2, e3⟩ := monitorLoop_quiet mnet count.toNat q r
      simp [Except.map, e1, e3]

/-- Claim C9: calling `monitor` with `count = 0` reaches the unguarded
division `success_attempts / count` (line 136) and raises
`ZeroDivisionError` past the public boundary, while under the precondition
`attempt_count >= 1` the run returns normally. -/
theorem claim_C9 :
    (∀ (host : String) (port : Int) (interval : ℚ) (q : Bool) (net : Nat → TcpResult),
        monitor host port 0 interval q net
          = Except.error "ZeroDivisionError: division by zero")
    ∧ (∀ (host : String) (port count : Int) (interval : ℚ) (q : Bool)
          (net : Nat → TcpResult),
        1 ≤ count → ∃ v, monitor host port count interval q net = Except.ok v) := by
  constructor
  · intro host port interval q net; rfl
  · intro host port count interval q net hc
    exact ⟨_, monitor_eq host port count interval q net (by omega)⟩

/-- Claim C9, witness: `count = 0` raises `ZeroDivisionError`, `count = 1`
returns normally. -/
theorem claim_C9_witness :
    monitor "example.com" 80 0 1 true (fun _ => TcpResult.timeout)
        = Except.error "ZeroDivisionError: division by zero"
    ∧ ∃ v, monitor "example.com" 80 1 1 true (fun _ => TcpResult.timeout)
        = Except.ok v :=
  ⟨claim_C9.1 "example.com" 80 1 true (fun _ => TcpResult.timeout),
   claim_C9.2 "example.com" 80 1 1 true (fun _ => TcpResult.timeout) (by norm_num)⟩

/-- Claim C10: the `"monitor"` slot of the assembled report is the monitor
run on the `domain` argument with the defaults `port = 80`, `count = 5`,
`interval = 1.0` — it does not depend on the `host` argument at all. -/
theorem claim_C10 (host url domain : String) (netP : TcpResult) (netA : HttpResult)
    (netD : DnsResult) (netM : Nat → TcpResult) :
    Except.map Report.monitor (assemble host url domain netP netA netD netM)
      = Except.map Prod.fst (monitor domain 80 5 1 true netM) := by
  obtain ⟨p, hp⟩ := ping_ok host true netP
  obtain ⟨a, ha⟩ := api_check_ok url true netA
  obtain ⟨d, hd⟩ := dns_check_ok domain true netD
  simp [assemble, hp, ha, hd, monitor_eq domain 80 5 1 true netM (by norm_num),
    Except.map, Except.bind, bind, pure, Except.pure]

end NetDiag
